import Mathlib

/-!
# Verification of the WayKeyLight discovery-and-control engine

Shallow embedding of `waykeylight.py`. Network I/O is modelled by passing
each HTTP interaction's outcome as an explicit argument: `none` stands for a
raised exception (timeout, connection failure, unparseable body), and
`some …` carries the HTTP status code together with the decoded JSON body.
Python dictionaries keyed by serial number are modelled as association
lists with unique keys, and Qt signal emissions are returned as explicit
`Option` values from the functions that would emit them.
-/

namespace WayKeyLight

/-- The `KeyLight` dataclass: identity and cached state of one device
(defaults as in the Python source). -/
structure KeyLight where
  name : String
  ip : String
  port : Nat
  serial_number : String
  is_on : Bool := false
  brightness : Int := 50
  temperature : Int := 4500
  deriving Repr, DecidableEq

/-- One entry of the device-reported `lights` array in a `GET /elgato/lights`
response body; each JSON field may be absent. -/
structure LightEntry where
  «on» : Option Int := none
  brightness : Option Int := none
  temperature : Option Int := none
  deriving Repr, DecidableEq

/-- The decoded JSON body of a `GET /elgato/lights` response: the `lights`
key may be absent (`none`) or hold a list of entries. -/
structure LightsBody where
  lights : Option (List LightEntry) := none
  deriving Repr, DecidableEq

/-- `KeyLight.get_status`: given the outcome of `GET {base}/lights`
(`none` = exception), returns the updated device together with the value the
Python method returns (`some` first light entry, or `None`). On a 200
response with a non-empty `lights` list, the cached fields are overwritten
(`on` present and equal to 1 gives `is_on = true`; absent `brightness`
defaults to 50, absent `temperature` to 4500). Otherwise the device is
returned unchanged and the result is `none`. -/
def KeyLight.get_status (self : KeyLight) (response : Option (Nat × LightsBody)) :
    KeyLight × Option LightEntry :=
  match response with
  | none => (self, none)
  | some (status_code, data) =>
    if status_code = 200 then
      match data.lights with
      | some (light :: _) =>
        ({ self with
            is_on := light.«on».getD 0 == 1
            brightness := light.brightness.getD 50
            temperature := light.temperature.getD 4500 },
          some light)
      | _ => (self, none)
    else (self, none)

/-- Python's `str.split(sep)` for a one-character separator, on the
character list: splits at every occurrence of the separator and keeps empty
fields (`"a  b".split(" ") == ["a", "", "b"]`, `"".split(" ") == [""]`), so
the result is never the empty list. -/
def pySplitChars (c : Char) : List Char → List (List Char)
  | [] => [[]]
  | a :: rest =>
    match pySplitChars c rest with
    | [] => [[]]
    | x :: xs => if a = c then [] :: x :: xs else (a :: x) :: xs

/-- Python's `str.split(sep)` for a one-character separator. -/
def pySplit (s : String) (c : Char) : List String :=
  (pySplitChars c s.data).map String.mk

/-- The decoded JSON body of a `GET {base}/settings` or
`GET {base}/accessory-info` response, as far as `get_friendly_name` looks at
it: the optional `displayName` key. -/
structure NameBody where
  displayName : Option String := none
  deriving Repr, DecidableEq

/-- A `displayName` is usable when the request did not raise, the status was
200, the key is present and its value is truthy (non-empty). This is the
condition of the two `if` tests inside `KeyLight.get_friendly_name`. -/
def usableDisplayName (response : Option (Nat × NameBody)) : Option String :=
  match response with
  | none => none
  | some (status_code, body) =>
    if status_code = 200 then
      match body.displayName with
      | some s => if s ≠ "" then some s else none
      | none => none
    else none

/-- `KeyLight.get_friendly_name`: tries `GET {base}/settings`, then
`GET {base}/accessory-info`, returning the first usable `displayName`;
falls back to `f"{self.name} ({self.ip.split(chr 46)[-1]})"`. Exceptions in
either request are modelled by `none` responses and swallowed. -/
def KeyLight.get_friendly_name (self : KeyLight)
    (settingsResp accessoryResp : Option (Nat × NameBody)) : String :=
  match usableDisplayName settingsResp with
  | some s => s
  | none =>
    match usableDisplayName accessoryResp with
    | some s => s
    | none => self.name ++ " (" ++ (pySplit self.ip '.').getLastD "" ++ ")"

/-- The JSON object inside the `lights` array of the `PUT {base}/lights`
request body built by `KeyLight.set_state`; all three fields are present by
construction. -/
structure LightsPut where
  «on» : Int
  brightness : Int
  temperature : Int
  deriving Repr, DecidableEq

/-- The `update_data` request body built at the top of `KeyLight.set_state`:
each field is the caller's value when specified, else the cached one. -/
def KeyLight.update_data (self : KeyLight) («on» : Option Bool)
    (brightness : Option Int) (temperature : Option Int) : LightsPut :=
  { «on» := if (match «on» with | some b => b | none => self.is_on) then 1 else 0
    brightness := match brightness with | some b => b | none => self.brightness
    temperature := match temperature with | some t => t | none => self.temperature }

/-- `KeyLight.set_state`: builds the complete `update_data` body (fields the
caller left `none` are filled from the cached state), performs the PUT —
modelled as a function `response` from the sent body to the outcome, `none`
standing for an exception — and on a 200 response updates the cached fields
that the caller specified and returns `true`; on any other outcome leaves
the device unchanged and returns `false`. The sent body is also returned so
theorems can speak about what went on the wire. -/
def KeyLight.set_state (self : KeyLight) («on» : Option Bool)
    (brightness : Option Int) (temperature : Option Int)
    (response : LightsPut → Option Nat) : KeyLight × Bool × LightsPut :=
  let update_data := self.update_data «on» brightness temperature
  match response update_data with
  | none => (self, false, update_data)
  | some status_code =>
    if status_code = 200 then
      ({ self with
          is_on := match «on» with | some b => b | none => self.is_on
          brightness := match brightness with | some b => b | none => self.brightness
          temperature := match temperature with | some t => t | none => self.temperature },
        true, update_data)
    else (self, false, update_data)

/-- `KeyLight.toggle`: `set_state(on=not self.is_on)`. -/
def KeyLight.toggle (self : KeyLight) (response : LightsPut → Option Nat) :
    KeyLight × Bool × LightsPut :=
  self.set_state (some (!self.is_on)) none none response

/-! ## Discovery service

`KeyLightDiscovery.lights` is a Python dict keyed by serial number; we model
it as an association list with unique keys (dict insertion order is
irrelevant to every claim). -/

/-- The `self.lights` registry of `KeyLightDiscovery`. -/
abbrev Registry := List (String × KeyLight)

/-- Membership test mirroring Python's `serial in self.lights`. -/
def Registry.tracks (lights : Registry) (serial : String) : Bool :=
  (lights.lookup serial).isSome

/-- The fields of a resolved mDNS `ServiceInfo` that `_process_service`
reads: the address list (each address a byte sequence), the port, and the
opaque property bag's decoded `id` and `md` values (`none` when the key is
absent, matching `properties.get`). -/
structure ServiceInfo where
  addresses : List (List Nat)
  port : Nat
  prop_id : Option String
  prop_md : Option String
  deriving Repr, DecidableEq

/-- `KeyLightDiscovery._process_service`: resolves the first address to a
dotted-decimal IP, reads `serial` (default empty) and the provisional
display name (default the literal model name) from the property bag, and —
when the serial is truthy and not already tracked — builds the `KeyLight`,
runs `get_status` and `get_friendly_name` against it with the supplied HTTP
outcomes, stores it in the registry and emits `light_discovered` (returned
as `some` of the emitted device). Any other case leaves the registry
unchanged and emits nothing. -/
def KeyLightDiscovery.process_service (lights : Registry) (info : ServiceInfo)
    (statusResp : Option (Nat × LightsBody))
    (settingsResp accessoryResp : Option (Nat × NameBody)) :
    Registry × Option KeyLight :=
  match info.addresses with
  | [] => (lights, none)
  | addr :: _ =>
    let ip := String.intercalate "." (addr.map toString)
    let port := info.port
    let serial := info.prop_id.getD ""
    let display_name := info.prop_md.getD "Elgato Key Light"
    if serial ≠ "" then
      if lights.tracks serial then (lights, none)
      else
        let light : KeyLight :=
          { name := display_name, ip := ip, port := port, serial_number := serial }
        let light := (light.get_status statusResp).1
        let friendly_name := light.get_friendly_name settingsResp accessoryResp
        let light := { light with name := friendly_name }
        ((serial, light) :: lights, some light)
    else (lights, none)

/-- `KeyLightDiscovery.remove_service`: splits the announced name on single
spaces; with at least four tokens, the serial is the fourth token up to its
first dot; a tracked serial is deleted from the registry and
`light_removed` is emitted (returned as `some serial`); otherwise, and for
shorter names, nothing changes and nothing is emitted. -/
def KeyLightDiscovery.remove_service (lights : Registry) (name : String) :
    Registry × Option String :=
  let parts := pySplit name ' '
  if parts.length ≥ 4 then
    let serial := (pySplit (parts.getD 3 "") '.').headD ""
    if lights.tracks serial then
      (lights.eraseP (fun p => p.1 == serial), some serial)
    else (lights, none)
  else (lights, none)

/-- The mutable state of a `KeyLightDiscovery` instance: whether the
zeroconf transport is open (`self.zeroconf is not None`, with `self.browser`
alive exactly then), the `lights` registry, and whether the thread-pool
executor still accepts work. -/
structure DiscoveryState where
  transport_open : Bool
  lights : Registry
  executor_alive : Bool
  deriving Repr, DecidableEq

/-- `KeyLightDiscovery.start`: opens a fresh zeroconf transport and browser.
It touches neither `self.lights` nor the executor. -/
def KeyLightDiscovery.start (s : DiscoveryState) : DiscoveryState :=
  { s with transport_open := true }

/-- `KeyLightDiscovery.stop`: closes the zeroconf transport (when open) and
shuts the executor down. It does not touch `self.lights`. -/
def KeyLightDiscovery.stop (s : DiscoveryState) : DiscoveryState :=
  { s with transport_open := false, executor_alive := false }

/-- `WayKeyLightTray.refresh_lights`: `self.discovery.stop()` then
`self.discovery.start()`. -/
def WayKeyLightTray.refresh_lights (s : DiscoveryState) : DiscoveryState :=
  KeyLightDiscovery.start (KeyLightDiscovery.stop s)

/-! ## Command dispatch (APIWorker) -/

/-- The payload of the `result_ready` signal: `(serial, is_on, brightness)`. -/
structure ResultReady where
  serial : String
  is_on : Bool
  brightness : Int
  deriving Repr, DecidableEq

/-- The `brightness` branch of `APIWorker.run`: calls
`set_state(brightness=value)` and emits `result_ready` (returned as `some`)
only when `set_state` returned `True`. The device after the call and the
sent body are returned as well. -/
def APIWorker.run_brightness (light : KeyLight) (value : Int)
    (response : LightsPut → Option Nat) :
    KeyLight × Option ResultReady × LightsPut :=
  let (light, success, body) := light.set_state none (some value) none response
  if success then
    (light, some ⟨light.serial_number, light.is_on, light.brightness⟩, body)
  else (light, none, body)

/-- The `power` branch of `APIWorker.run`: calls `set_state(on=value)` and
emits `result_ready` only on success. -/
def APIWorker.run_power (light : KeyLight) (value : Bool)
    (response : LightsPut → Option Nat) :
    KeyLight × Option ResultReady × LightsPut :=
  let (light, success, body) := light.set_state (some value) none none response
  if success then
    (light, some ⟨light.serial_number, light.is_on, light.brightness⟩, body)
  else (light, none, body)

/-! ## Brightness debouncing (LightControlWidget)

`on_brightness_changed` stores the new value in `pending_brightness`, stops
any previous `QTimer` and starts a fresh single-shot 500 ms timer wired to
`apply_pending_brightness`. A stopped timer never fires, so we give each
started timer a generation number: the widget remembers the generation of
the one live timer, and a `fire g` event for any other generation is the
timeout of a timer that was cancelled and is ignored. Real time does not
appear; "within the debounce window" means no `fire` of the live timer
occurs between two intents. -/

/-- Debounce-relevant state of a `LightControlWidget`: the pending
brightness value, the generation of the live timer (if any), and the next
fresh generation number. -/
structure DebounceState where
  pending_brightness : Option Int
  timer : Option Nat
  next_gen : Nat
  deriving Repr, DecidableEq

/-- State of a widget with no pending intent and no timer. -/
def DebounceState.initial : DebounceState :=
  { pending_brightness := none, timer := none, next_gen := 0 }

/-- Events hitting the debounce layer: a slider intent, or the timeout of
the timer of generation `g`. -/
inductive DebounceEvent where
  | intent (v : Int)
  | fire (g : Nat)
  deriving Repr, DecidableEq

/-- One event step. `intent v` is `on_brightness_changed`: records `v` as
pending, cancels the previous timer and starts a fresh one. `fire g` of the
live timer is `apply_pending_brightness`: dispatches the pending value (the
output list) and clears it; the timeout of a cancelled timer does nothing. -/
def DebounceState.step (s : DebounceState) : DebounceEvent → DebounceState × List Int
  | .intent v =>
    ({ pending_brightness := some v, timer := some s.next_gen,
       next_gen := s.next_gen + 1 }, [])
  | .fire g =>
    if s.timer = some g then
      match s.pending_brightness with
      | some v => ({ s with pending_brightness := none, timer := none }, [v])
      | none => ({ s with timer := none }, [])
    else (s, [])

/-- Run a sequence of debounce events, collecting every dispatched
`setState` brightness value in order. -/
def DebounceState.run (s : DebounceState) : List DebounceEvent → DebounceState × List Int
  | [] => (s, [])
  | e :: es =>
    let (s1, out) := s.step e
    let (s2, outs) := s1.run es
    (s2, out ++ outs)

/-! ## Widget state vs. reconciliation (LightControlWidget / WayKeyLightTray) -/

/-- The slice of a `LightControlWidget` (and its `KeyLight`) that
`on_status_update` and `update_state` touch: the cached device state, the
pending debounced intent, and the rendered checkbox/slider values. -/
structure WidgetState where
  light_is_on : Bool
  light_brightness : Int
  pending_brightness : Option Int
  checkbox : Bool
  slider : Int
  deriving Repr, DecidableEq

/-- `LightControlWidget.update_state`: always re-renders the power checkbox
from the cached state; re-renders the brightness slider from the cached
state only when no brightness intent is pending. -/
def LightControlWidget.update_state (s : WidgetState) : WidgetState :=
  let s := { s with checkbox := s.light_is_on }
  match s.pending_brightness with
  | none => { s with slider := s.light_brightness }
  | some _ => s

/-- `WayKeyLightTray.on_status_update` restricted to one device whose serial
matches: when the polled `(is_on, brightness)` differs from the cache, the
cache is overwritten and `popup.update_light` → `update_state` re-renders
the widget; otherwise nothing changes. -/
def WayKeyLightTray.on_status_update (s : WidgetState) (is_on : Bool)
    (brightness : Int) : WidgetState :=
  if s.light_is_on ≠ is_on ∨ s.light_brightness ≠ brightness then
    LightControlWidget.update_state
      { s with light_is_on := is_on, light_brightness := brightness }
  else s

/-- `LightControlWidget.apply_pending_brightness` on the widget slice: when
an intent is pending, hands its value to an `APIWorker` (returned as `some`
of the dispatched brightness) and clears `pending_brightness`. -/
def LightControlWidget.apply_pending_brightness (s : WidgetState) :
    WidgetState × Option Int :=
  match s.pending_brightness with
  | some v => ({ s with pending_brightness := none }, some v)
  | none => (s, none)

/-! ## Concrete devices and registries used by witnesses and counterexamples -/

/-- A freshly constructed device, as `_process_service` would build it from
the announcement of serial `AB12` at `192.168.1.50:9123`. -/
def demoLight : KeyLight :=
  { name := "Elgato Key Light", ip := "192.168.1.50", port := 9123,
    serial_number := "AB12" }

/-- A `ServiceInfo` for the same announcement. -/
def demoInfo : ServiceInfo :=
  { addresses := [[192, 168, 1, 50]], port := 9123,
    prop_id := some "AB12", prop_md := some "Elgato Key Light" }

/-- A one-entry registry tracking serial `AB12`. -/
def demoRegistry : Registry := [("AB12", demoLight)]

/-- A running discovery service that has already seen serial `AB12`. -/
def demoDiscState : DiscoveryState :=
  { transport_open := true, lights := demoRegistry, executor_alive := true }

/-- A widget mid-drag: the user has asked for brightness 85 (pending,
timer running) while the cache still holds 40. -/
def demoWidget : WidgetState :=
  { light_is_on := true, light_brightness := 40, pending_brightness := some 85,
    checkbox := true, slider := 85 }

/-! ## Helper lemmas -/

/-- Whatever the PUT's outcome, the body sent by `set_state` is the
`update_data` object. -/
theorem KeyLight.set_state_sends_update_data (self : KeyLight)
    («on» : Option Bool) (brightness temperature : Option Int)
    (response : LightsPut → Option Nat) :
    (self.set_state «on» brightness temperature response).2.2 =
      self.update_data «on» brightness temperature := by
  unfold KeyLight.set_state
  cases h : response (self.update_data «on» brightness temperature) with
  | none => simp [h]
  | some status_code => by_cases hs : status_code = 200 <;> simp [h, hs]

/-- `set_state` reports success exactly when the PUT of the built body
returned HTTP 200. -/
theorem KeyLight.set_state_success_iff (self : KeyLight)
    («on» : Option Bool) (brightness temperature : Option Int)
    (response : LightsPut → Option Nat) :
    (self.set_state «on» brightness temperature response).2.1 = true ↔
      response (self.update_data «on» brightness temperature) = some 200 := by
  unfold KeyLight.set_state
  cases h : response (self.update_data «on» brightness temperature) with
  | none => simp [h]
  | some status_code =>
    by_cases hs : status_code = 200 <;> simp [h, hs]

/-- When `set_state` reports failure, the cached device is unchanged. -/
theorem KeyLight.set_state_failure_no_change (self : KeyLight)
    («on» : Option Bool) (brightness temperature : Option Int)
    (response : LightsPut → Option Nat)
    (h : (self.set_state «on» brightness temperature response).2.1 = false) :
    (self.set_state «on» brightness temperature response).1 = self := by
  unfold KeyLight.set_state at h ⊢
  cases hr : response (self.update_data «on» brightness temperature) with
  | none => simp [hr]
  | some status_code =>
    by_cases hs : status_code = 200
    · simp [hr, hs] at h
    · simp [hr, hs]

/-! ## Claim theorems -/

/-- C6: for every call to `set_state`, with any subset of the three fields
specified, the PUT body is complete: each unspecified field is filled from
the device's cached `is_on`/`brightness`/`temperature`, so every request
carries all three fields. -/
theorem C6_set_state_sends_complete_body (self : KeyLight)
    («on» : Option Bool) (brightness temperature : Option Int)
    (response : LightsPut → Option Nat) :
    (self.set_state «on» brightness temperature response).2.2 =
      { «on» := if «on».getD self.is_on then 1 else 0
        brightness := brightness.getD self.brightness
        temperature := temperature.getD self.temperature } := by
  rw [KeyLight.set_state_sends_update_data]
  unfold KeyLight.update_data
  cases «on» <;> cases brightness <;> cases temperature <;> rfl

/-- C9: a dispatched `setState` brightness command whose PUT does not come
back as HTTP 200 (non-200 status, connection failure or timeout, the latter
two modelled as `none`) leaves the cached device unchanged and emits no
`result_ready` signal; the cache is updated only after a 200 response. -/
theorem C9_failed_set_state_changes_nothing (light : KeyLight) (value : Int)
    (response : LightsPut → Option Nat)
    (hfail : response (light.update_data none (some value) none) ≠ some 200) :
    (APIWorker.run_brightness light value response).1 = light ∧
    (APIWorker.run_brightness light value response).2.1 = none := by
  have hsucc : (light.set_state none (some value) none response).2.1 = false := by
    rcases h : (light.set_state none (some value) none response).2.1 with _ | _
    · rfl
    · exact absurd ((light.set_state_success_iff none (some value) none response).1 h) hfail
  have hnc := light.set_state_failure_no_change none (some value) none response hsucc
  unfold APIWorker.run_brightness
  rcases he : light.set_state none (some value) none response with ⟨l2, s2, b2⟩
  rw [he] at hsucc hnc
  cases s2 with
  | false => exact ⟨hnc, rfl⟩
  | true => exact absurd hsucc (by simp)

/-- Witness for C9 at a concrete input: a timed-out PUT (`none` outcome)
leaves the demo device untouched and emits nothing. -/
theorem C9_witness :
    (APIWorker.run_brightness demoLight 30 (fun _ => none)).1 = demoLight ∧
    (APIWorker.run_brightness demoLight 30 (fun _ => none)).2.1 = none :=
  C9_failed_set_state_changes_nothing demoLight 30 (fun _ => none) (by simp)

/-- C10: `get_status` on a 200 response with a non-empty `lights` list
stores the first entry's fields with defaults (`on` other than 1 — in
particular absent, defaulting to 0 — gives `is_on = false`, absent
`brightness` becomes 50, absent `temperature` becomes 4500) and returns the
entry; on an exception, a non-200 status, an absent `lights` key or an
empty list it returns `none` and leaves every cached field unchanged. -/
theorem C10_get_status_defaults_and_failures (self : KeyLight) :
    (∀ entry rest,
      self.get_status (some (200, ⟨some (entry :: rest)⟩)) =
        ({ self with
            is_on := entry.«on».getD 0 == 1
            brightness := entry.brightness.getD 50
            temperature := entry.temperature.getD 4500 }, some entry)) ∧
    (∀ x, x ≠ 1 →
      (self.get_status (some (200, ⟨some [⟨some x, none, none⟩]⟩))).1 =
        { self with is_on := false, brightness := 50, temperature := 4500 }) ∧
    (self.get_status none = (self, none)) ∧
    (∀ status_code body, status_code ≠ 200 →
      self.get_status (some (status_code, body)) = (self, none)) ∧
    (self.get_status (some (200, ⟨none⟩)) = (self, none)) ∧
    (self.get_status (some (200, ⟨some []⟩)) = (self, none)) := by
  refine ⟨fun entry rest => rfl, fun x hx => ?_, rfl, fun status_code body hs => ?_, rfl, rfl⟩
  · have hx1 : (x == 1) = false := by simpa using hx
    unfold KeyLight.get_status
    simp [hx1]
  · unfold KeyLight.get_status
    simp [hs]

/-- Witness for C10 at concrete inputs: a 404 response and an `on = 0`
entry behave as the theorem states for the demo device. -/
theorem C10_witness :
    demoLight.get_status (some (404, ⟨some [⟨some 1, some 30, some 5000⟩]⟩)) =
      (demoLight, none) ∧
    (demoLight.get_status (some (200, ⟨some [⟨some 0, none, none⟩]⟩))).1 =
      { demoLight with is_on := false, brightness := 50, temperature := 4500 } :=
  ⟨(C10_get_status_defaults_and_failures demoLight).2.2.2.1 404
      ⟨some [⟨some 1, some 30, some 5000⟩]⟩ (by decide),
    (C10_get_status_defaults_and_failures demoLight).2.1 0 (by decide)⟩

/-- C2 counterexample: no clamping exists. `set_state` with brightness 150
— outside [1,100] — sends 150 on the wire and stores 150 in the cache after
a 200 response; the claim that every sent or stored brightness lies in
[1,100] is therefore false. -/
theorem C2_counterexample :
    (demoLight.set_state none (some 150) none (fun _ => some 200)).2.2.brightness = 150 ∧
    (demoLight.set_state none (some 150) none (fun _ => some 200)).1.brightness = 150 ∧
    ¬((1 : Int) ≤ 150 ∧ (150 : Int) ≤ 100) := by
  refine ⟨rfl, rfl, by decide⟩

/-- C2 amended: brightness values pass through unclamped. `set_state`
sends exactly the caller's brightness whatever the response, stores exactly
that value after a 200 response, and `get_status` stores exactly the
device-reported brightness; no clamping to [1,100] is performed anywhere
in these methods. -/
theorem C2_amended_brightness_passthrough (light : KeyLight) (v reported : Int) :
    (∀ response, (light.set_state none (some v) none response).2.2.brightness = v) ∧
    (light.set_state none (some v) none (fun _ => some 200)).1.brightness = v ∧
    (light.get_status (some (200, ⟨some [⟨none, some reported, none⟩]⟩))).1.brightness =
      reported := by
  refine ⟨fun response => ?_, rfl, rfl⟩
  rw [KeyLight.set_state_sends_update_data]
  rfl

/-- A key outside an association list's key column has no binding. -/
theorem Registry.lookup_eq_none_of_not_mem_keys (lights : Registry) (k : String)
    (h : k ∉ lights.map Prod.fst) : lights.lookup k = none := by
  induction lights with
  | nil => rfl
  | cons p t ih =>
    simp only [List.map_cons, List.mem_cons, not_or] at h
    obtain ⟨h1, h2⟩ := h
    have hb : (k == p.1) = false := beq_eq_false_iff_ne.2 h1
    rcases p with ⟨a, b⟩
    simp only at hb
    simp [List.lookup, hb, ih h2]

/-- Deleting a key from a registry with pairwise-distinct keys (the dict
invariant) leaves that key untracked. -/
theorem Registry.tracks_eraseP_self (lights : Registry) (k : String)
    (h : (lights.map Prod.fst).Nodup) :
    Registry.tracks (lights.eraseP (fun p => p.1 == k)) k = false := by
  suffices hl : (lights.eraseP (fun p => p.1 == k)).lookup k = none by
    unfold Registry.tracks
    simp [hl]
  induction lights with
  | nil => rfl
  | cons p t ih =>
    simp only [List.map_cons, List.nodup_cons] at h
    obtain ⟨hp, ht⟩ := h
    rw [List.eraseP_cons]
    by_cases hk : p.1 = k
    · have hb : (p.1 == k) = true := by simpa using hk
      simp only [hb, if_true]
      apply Registry.lookup_eq_none_of_not_mem_keys
      rw [← hk]; exact hp
    · have hb : (p.1 == k) = false := beq_eq_false_iff_ne.2 hk
      have hkb : (k == p.1) = false := beq_eq_false_iff_ne.2 (fun he => hk he.symm)
      rcases p with ⟨a, b⟩
      simp only at hb hkb
      simpa [hb, List.lookup, hkb] using ih ht

/-- C7: a remove announcement whose name has at least four space-separated
tokens is parsed to the fourth token up to its first dot; a tracked serial
is deleted (no longer tracked afterwards) and `light_removed` carries
exactly that serial; an untracked serial, or a name with fewer than four
tokens, changes nothing and emits nothing. -/
theorem C7_remove_service_parsing (lights : Registry) (name : String)
    (hnodup : (lights.map Prod.fst).Nodup) :
    ((pySplit name ' ').length < 4 →
      KeyLightDiscovery.remove_service lights name = (lights, none)) ∧
    (∀ serial, serial = (pySplit ((pySplit name ' ').getD 3 "") '.').headD "" →
      4 ≤ (pySplit name ' ').length →
      (lights.tracks serial = true →
        (KeyLightDiscovery.remove_service lights name).2 = some serial ∧
        Registry.tracks (KeyLightDiscovery.remove_service lights name).1 serial = false) ∧
      (lights.tracks serial = false →
        KeyLightDiscovery.remove_service lights name = (lights, none))) := by
  constructor
  · intro hlt
    unfold KeyLightDiscovery.remove_service
    have hge : ¬ (pySplit name ' ').length ≥ 4 := by omega
    simp [hge]
  · rintro serial rfl hge
    simp only [List.getD_eq_getElem?_getD, List.headD_eq_head?_getD]
    constructor
    · intro htr
      unfold KeyLightDiscovery.remove_service
      simp [hge, htr, Registry.tracks_eraseP_self lights _ hnodup]
    · intro htr
      unfold KeyLightDiscovery.remove_service
      simp [hge, htr]

/-- Witness for C7 at concrete inputs: removing
`Elgato Key Light AB12._elg._tcp.local.` from the demo registry untracks
`AB12` and emits it. -/
theorem C7_witness :
    (KeyLightDiscovery.remove_service demoRegistry
        "Elgato Key Light AB12._elg._tcp.local.").2 = some "AB12" ∧
    (KeyLightDiscovery.remove_service demoRegistry
        "Elgato Key Light AB12._elg._tcp.local.").1.tracks "AB12" = false :=
  ((C7_remove_service_parsing demoRegistry "Elgato Key Light AB12._elg._tcp.local."
      (by decide)).2 "AB12" (by decide) (by decide)).1 (by decide)

/-- C8: display-name resolution looks at `/settings` first and
`/accessory-info` second, accepting exactly a non-empty `displayName`
delivered with HTTP 200 (conjuncts one to five characterise acceptance:
non-200, exception, absent key and empty string are all rejected); when the
first endpoint yields a usable name it is returned, else the second's, else
the synthesized fallback `{name} ({last IP octet})` — and the function is
total over all response shapes, raising nothing. -/
theorem C8_friendly_name_resolution (self : KeyLight)
    (settingsResp accessoryResp : Option (Nat × NameBody)) :
    (∀ status_code body, status_code ≠ 200 →
      usableDisplayName (some (status_code, body)) = none) ∧
    usableDisplayName none = none ∧
    usableDisplayName (some (200, ⟨none⟩)) = none ∧
    usableDisplayName (some (200, ⟨some ""⟩)) = none ∧
    (∀ s, s ≠ "" → usableDisplayName (some (200, ⟨some s⟩)) = some s) ∧
    (∀ s, usableDisplayName settingsResp = some s →
      self.get_friendly_name settingsResp accessoryResp = s) ∧
    (∀ s, usableDisplayName settingsResp = none →
      usableDisplayName accessoryResp = some s →
      self.get_friendly_name settingsResp accessoryResp = s) ∧
    (usableDisplayName settingsResp = none →
      usableDisplayName accessoryResp = none →
      self.get_friendly_name settingsResp accessoryResp =
        self.name ++ " (" ++ (pySplit self.ip '.').getLastD "" ++ ")") := by
  refine ⟨fun status_code body hs => ?_, rfl, rfl, ?_, fun s hs => ?_, fun s hs => ?_,
    fun s hn ha => ?_, fun hn ha => ?_⟩
  · unfold usableDisplayName
    simp [hs]
  · unfold usableDisplayName
    simp
  · unfold usableDisplayName
    simp [hs]
  · unfold KeyLight.get_friendly_name
    rw [hs]
  · unfold KeyLight.get_friendly_name
    rw [hn, ha]
  · unfold KeyLight.get_friendly_name
    rw [hn, ha]

/-- Witness for C8 at concrete inputs: a 500 from `/settings` and a usable
name from `/accessory-info` resolve to the latter's name. -/
theorem C8_witness :
    demoLight.get_friendly_name (some (500, ⟨some "Office"⟩))
      (some (200, ⟨some "Desk"⟩)) = "Desk" :=
  (C8_friendly_name_resolution demoLight (some (500, ⟨some "Office"⟩))
      (some (200, ⟨some "Desk"⟩))).2.2.2.2.2.2.1 "Desk" (by decide) (by decide)

/-- C1 counterexample: processing the demo announcement while the initial
status request raises (`none`, e.g. a connection failure, so `get_status`
returns `None` and is certainly not an HTTP 200) still stores the device
under `AB12` and emits `light_discovered`; the claim that a device whose
`get_status` failed is not published is false. -/
theorem C1_counterexample :
    (demoLight.get_status none).2 = none ∧
    (KeyLightDiscovery.process_service [] demoInfo none none none).1.tracks "AB12" = true ∧
    (KeyLightDiscovery.process_service [] demoInfo none none none).2 =
      some { demoLight with name := "Elgato Key Light (50)" } := by
  refine ⟨rfl, by decide, by decide⟩

/-- C1 amended: `_process_service` stores and publishes a device exactly
when the announcement has at least one address and a non-empty serial that
is not already tracked; the outcome of the initial `get_status` call plays
no role in that decision (first conjunct: replacing the status response by
a failure changes nothing about whether the device is published). -/
theorem C1_amended_publish_ignores_status (lights : Registry) (info : ServiceInfo)
    (statusResp : Option (Nat × LightsBody))
    (settingsResp accessoryResp : Option (Nat × NameBody)) :
    ((KeyLightDiscovery.process_service lights info statusResp settingsResp
        accessoryResp).2.isSome =
      (KeyLightDiscovery.process_service lights info none settingsResp
        accessoryResp).2.isSome) ∧
    ((KeyLightDiscovery.process_service lights info statusResp settingsResp
        accessoryResp).2.isSome = true ↔
      (info.addresses ≠ [] ∧ info.prop_id.getD "" ≠ "" ∧
        lights.tracks (info.prop_id.getD "") = false)) := by
  unfold KeyLightDiscovery.process_service
  cases haddr : info.addresses with
  | nil => simp
  | cons a rest =>
    by_cases hserial : info.prop_id.getD "" = ""
    · simp [hserial]
    · cases htr : lights.tracks (info.prop_id.getD "") with
      | true => simp [hserial, htr]
      | false => simp [hserial, htr]

/-- C3 counterexample: with serial `AB12` tracked, a `refresh_lights`
(stop then start) leaves the known-service state non-empty — `AB12` is
still tracked — and a fresh, fully healthy re-announcement of `AB12` is
ignored rather than processed as new; the claim that the post-restart
known-service state is empty is false. -/
theorem C3_counterexample :
    (WayKeyLightTray.refresh_lights demoDiscState).lights = demoRegistry ∧
    demoRegistry ≠ [] ∧
    (WayKeyLightTray.refresh_lights demoDiscState).lights.tracks "AB12" = true ∧
    (KeyLightDiscovery.process_service
        (WayKeyLightTray.refresh_lights demoDiscState).lights demoInfo
        (some (200, ⟨some [⟨some 1, some 80, some 5000⟩]⟩)) none none).2 = none := by
  exact ⟨rfl, by decide, by decide, by decide⟩

/-- C3 amended: `stop()` closes the transport and shuts down the executor
but does not clear the `lights` mapping, so after the `stop()`/`start()`
cycle of `refresh_lights` the known-service state is exactly what it was
before the stop; a re-announcement of a still-tracked serial is ignored
(registry unchanged, nothing published) rather than processed as new. -/
theorem C3_amended_refresh_keeps_lights (s : DiscoveryState) (info : ServiceInfo)
    (statusResp : Option (Nat × LightsBody))
    (settingsResp accessoryResp : Option (Nat × NameBody))
    (htracked : s.lights.tracks (info.prop_id.getD "") = true) :
    (WayKeyLightTray.refresh_lights s).lights = s.lights ∧
    KeyLightDiscovery.process_service (WayKeyLightTray.refresh_lights s).lights info
        statusResp settingsResp accessoryResp = (s.lights, none) := by
  refine ⟨rfl, ?_⟩
  show KeyLightDiscovery.process_service s.lights info statusResp settingsResp
      accessoryResp = (s.lights, none)
  unfold KeyLightDiscovery.process_service
  cases haddr : info.addresses with
  | nil => rfl
  | cons a rest =>
    by_cases hserial : info.prop_id.getD "" = ""
    · simp [hserial]
    · simp [hserial, htracked]

/-- Witness for C3's amended statement at concrete inputs: refreshing the
demo discovery state keeps its registry, and the healthy re-announcement of
`AB12` is a no-op. -/
theorem C3_witness :
    (WayKeyLightTray.refresh_lights demoDiscState).lights = demoDiscState.lights ∧
    KeyLightDiscovery.process_service (WayKeyLightTray.refresh_lights demoDiscState).lights
        demoInfo (some (200, ⟨some [⟨some 1, some 80, some 5000⟩]⟩)) none none =
      (demoDiscState.lights, none) :=
  C3_amended_refresh_keeps_lights demoDiscState demoInfo
    (some (200, ⟨some [⟨some 1, some 80, some 5000⟩]⟩)) none none (by decide)

/-- C4: three brightness intents submitted while no timer fires in between
(the debounce window) leave only the third timer (generation 2) live with
v3 pending — each intent cancelled its predecessor's timer and value — and
the subsequent timer expiry dispatches exactly one `setState` call,
carrying v3, when it is the live timer's; the expiry of either cancelled
timer dispatches nothing. -/
theorem C4_debounce_last_write_wins (v1 v2 v3 : Int) (g : Nat) :
    DebounceState.run DebounceState.initial
        [.intent v1, .intent v2, .intent v3, .fire g] =
      (if g = 2 then
        ({ pending_brightness := none, timer := none, next_gen := 3 }, [v3])
      else
        ({ pending_brightness := some v3, timer := some 2, next_gen := 3 }, [])) := by
  by_cases hg : g = 2
  · simp [DebounceState.run, DebounceState.step, DebounceState.initial, hg]
  · have hg2 : ¬ (2 = g) := fun h => hg h.symm
    simp [DebounceState.run, DebounceState.step, DebounceState.initial, hg, hg2]

/-- C5: while a brightness intent `v` is pending for a device, a completing
reconciliation poll for that device leaves the pending intent intact,
leaves the brightness slider untouched (the brightness-axis update is
suppressed), and the value eventually handed to the `APIWorker` by
`apply_pending_brightness` is still `v`. -/
theorem C5_pending_intent_not_overwritten (s : WidgetState) (is_on : Bool)
    (brightness v : Int) (h : s.pending_brightness = some v) :
    (WayKeyLightTray.on_status_update s is_on brightness).pending_brightness = some v ∧
    (WayKeyLightTray.on_status_update s is_on brightness).slider = s.slider ∧
    (LightControlWidget.apply_pending_brightness
        (WayKeyLightTray.on_status_update s is_on brightness)).2 = some v := by
  unfold WayKeyLightTray.on_status_update LightControlWidget.update_state
    LightControlWidget.apply_pending_brightness
  by_cases hc : s.light_is_on ≠ is_on ∨ s.light_brightness ≠ brightness
  · simp [hc, h]
  · simp [hc, h]

/-- Witness for C5 at concrete inputs: a poll reporting (off, 60) while 85
is pending leaves 85 pending, the slider untouched, and dispatches 85. -/
theorem C5_witness :
    (WayKeyLightTray.on_status_update demoWidget false 60).pending_brightness = some 85 ∧
    (WayKeyLightTray.on_status_update demoWidget false 60).slider = demoWidget.slider ∧
    (LightControlWidget.apply_pending_brightness
        (WayKeyLightTray.on_status_update demoWidget false 60)).2 = some 85 :=
  C5_pending_intent_not_overwritten demoWidget false 60 85 rfl

end WayKeyLight
